import Mathlib

/-!
# Verification of the nomoLLM MCP client (`src/nomollm/client.py`)

Shallow embedding of the tool-routing / dispatch loop of the repository's
`MCPClient`, together with its helper `format_available_tools`
(`src/nomollm/utils.py`) and the CLI entry point `main`.

External collaborators (the Gemini LLM API, the MCP SDK transport and the
tool-server processes) are modelled as oracles: an LLM is a function from a
conversation to a response, and a tool server is a `Session` carrying the
fixed tool list its `list_tools()` call reports.  Everything the client
itself computes — conversation construction, the per-turn tool fetch, the
dispatch expression, the append order of turns, connection validation,
teardown order and the CLI argument check — is translated directly from the
Python source.
-/

set_option autoImplicit false

namespace NomoLLM

/-- Python `s.endswith(t)`, modelled on the character sequences of the two
strings. -/
def pyEndsWith (s t : String) : Bool :=
  List.isSuffixOf t.data s.data

/-- Python `s.strip()`: drop whitespace from both ends. -/
def pyStrip (s : String) : String :=
  ⟨((s.data.dropWhile Char.isWhitespace).reverse.dropWhile
      Char.isWhitespace).reverse⟩

/-- Python `s.lower()`: lowercase every character. -/
def pyLower (s : String) : String :=
  ⟨s.data.map Char.toLower⟩

/-- Python string equality `a == b`, modelled on character sequences. -/
def pyStrEq (a b : String) : Bool :=
  a.data == b.data

/-- Python exception classes that the embedded code can raise. -/
inductive PyErr where
  /-- Python `ValueError`, raised by `connect_to_server` for unrecognized scripts. -/
  | valueError (msg : String)
  /-- Python `AttributeError`, raised when an attribute lookup on an object fails. -/
  | attributeError (msg : String)
  /-- Python `NameError`, raised when a local variable is read before assignment. -/
  | nameError (name : String)
  deriving DecidableEq, Repr

/-- An MCP tool descriptor: `{name, description, inputSchema}` as advertised
by a tool server (see the schema quoted in `process_query`'s docstring). -/
structure Tool where
  name : String
  description : String
  inputSchema : String
  deriving DecidableEq, Repr

/-- A connected MCP `ClientSession`.  The transport is external; what the
client observes of a session is its identity and the tool list its
`list_tools()` call returns, so a session is modelled by an identifier plus
that fixed tool list. -/
structure Session where
  sid : Nat
  tools : List Tool
  deriving DecidableEq, Repr

/-- The result object of `session.list_tools()`: its `.tools` field holds
the tool descriptors. -/
structure ListToolsResponse where
  tools : List Tool
  deriving DecidableEq, Repr

/-- The call `session.list_tools()`, modelled as returning the session's fixed
advertised tool list. -/
def list_tools (s : Session) : ListToolsResponse :=
  ⟨s.tools⟩

/-- One flattened function declaration handed to the LLM. -/
structure ToolDecl where
  name : String
  description : String
  parameters : String
  deriving DecidableEq, Repr

/-- Function `format_available_tools` from `src/nomollm/utils.py`: maps each tool of
a `list_tools()` response to a `name`/`description`/`parameters` record. -/
def format_available_tools (tools : ListToolsResponse) : List ToolDecl :=
  tools.tools.map fun tool => ⟨tool.name, tool.description, tool.inputSchema⟩

/-- A tool invocation request produced by the LLM
(`response.function_calls[i]`): a name plus an argument mapping. -/
structure FunctionCall where
  name : String
  args : List (String × String)
  deriving DecidableEq, Repr

/-- An LLM response: a (possibly empty) list of requested tool invocations
and a text field (possibly absent).  `if response.function_calls:` in the
source tests the list for non-emptiness. -/
structure LLMResponse where
  function_calls : List FunctionCall
  text : Option String
  deriving DecidableEq, Repr

/-- A part of a conversation turn (`google.genai.types.Part`). -/
inductive Part where
  /-- A `types.Part(text=...)`. -/
  | textPart (t : Option String)
  /-- A `types.Part(function_call=tool_call)`. -/
  | functionCallPart (c : FunctionCall)
  /-- A `types.Part.from_function_response(name=..., response={"result": result})`;
  the single-key `response` dict is carried as its `result` payload. -/
  | functionResponsePart (name : String) (result : String)
  deriving DecidableEq, Repr

/-- A conversation turn (`google.genai.types.Content`): a role tag plus
parts. -/
structure Content where
  role : String
  parts : List Part
  deriving DecidableEq, Repr

/-- The turn `types.Content(role="user", parts=[types.Part(text=query)])`. -/
def userTextContent (query : String) : Content :=
  ⟨"user", [.textPart (some query)]⟩

/-- The turn `types.Content(role="model", parts=[types.Part(text=t)])`. -/
def modelTextContent (t : Option String) : Content :=
  ⟨"model", [.textPart t]⟩

/-- The turn `types.Content(role="model", parts=[types.Part(function_call=tool_call)])`. -/
def modelCallContent (c : FunctionCall) : Content :=
  ⟨"model", [.functionCallPart c]⟩

/-- The turn `types.Content(role="user", parts=[function_response_part])`. -/
def userResponseContent (name : String) (result : String) : Content :=
  ⟨"user", [.functionResponsePart name result]⟩

/-- An LLM oracle: `generate_content` as a function of the conversation it
is given (the model id and tool config do not vary the shape we verify). -/
def LLM : Type := List Content → LLMResponse

/-- Lines 88–104 of `process_query`: `if contents_history:` (Python
truthiness — `None` and the empty list are both falsy) either appends a new
user turn to the existing conversation or starts a fresh one-turn
conversation. -/
def contentsInit (query : String) (contentsHistory : Option (List Content)) :
    List Content :=
  match contentsHistory with
  | some h => if h ≠ [] then h ++ [userTextContent query] else [userTextContent query]
  | none => [userTextContent query]

/-- Lines 105–111 of `process_query`, translated statement by statement:

```
available_tools = []
for session in self.sessions:
    tools = await session.list_tools()
available_tools.append(format_available_tools(tools))
available_tools = list(itertools.chain.from_iterable(available_tools))
```

The `append` sits OUTSIDE the `for` body in the source, so the loop merely
reassigns the local `tools`, leaving it bound to the LAST session's
response; with no sessions the loop body never runs and reading `tools`
raises `NameError`.  The fold below reassigns an `Option`-valued `tools`
exactly as the loop does, and the singleton-list-then-join mirrors the
single `append` plus `chain.from_iterable`. -/
def queryTurnAvailableTools (sessions : List Session) :
    Except PyErr (List ToolDecl) :=
  match sessions.foldl (fun _ session => some (list_tools session)) none with
  | none => .error (.nameError "tools")
  | some tools => .ok (List.flatten [format_available_tools tools])

/-- A Python-`dict` insert on an association list: overwrite the value in
place when the key exists, else append the pair (insertion order kept). -/
def dictSet (d : List (String × Session)) (k : String) (v : Session) :
    List (String × Session) :=
  if d.any (fun kv => kv.1 = k) then
    d.map (fun kv => if kv.1 = k then (k, v) else kv)
  else
    d ++ [(k, v)]

/-- Lookup in the association-list dict model. -/
def dictGet? (d : List (String × Session)) (k : String) : Option Session :=
  (d.find? (fun kv => kv.1 = k)).map (fun kv => kv.2)

/-- Lines 64–71 of `connect_to_server`: the `(tool.name -> session)` dict
built by iterating every open session; a later session's tool overwrites an
earlier entry of the same name.  (The source builds this dict into a local
variable, prints its keys, and discards it.) -/
def available_tools_connect (sessions : List Session) :
    List (String × Session) :=
  sessions.foldl
    (fun d session =>
      (list_tools session).tools.foldl (fun d tool => dictSet d tool.name session) d)
    []

/-- The dispatch expression `result = await self.sessions.call_tool(tool_name, tool_args)`
(line 133).  `self.sessions` is declared `list[ClientSession]` in
`__init__`; a Python `list` object has no `call_tool` attribute, so this
attribute access raises `AttributeError` regardless of the tool name or of
which sessions are open. -/
def sessionsCallTool (_sessions : List Session) (_toolName : String)
    (_args : List (String × String)) : Except PyErr String :=
  .error (.attributeError "list object has no attribute call_tool")

/-- The `for tool_call in response.function_calls:` loop (lines 125–152):
dispatch each call via `self.sessions.call_tool`, then append a model turn
recording the function call and a user turn carrying the function
response.  An exception from the dispatch propagates, aborting the turn. -/
def toolCallLoop (sessions : List Session) (calls : List FunctionCall)
    (contents : List Content) : Except PyErr (List Content) :=
  match calls with
  | [] => .ok contents
  | c :: rest =>
      match sessionsCallTool sessions c.name c.args with
      | .error e => .error e
      | .ok r =>
          toolCallLoop sessions rest
            (contents ++ [modelCallContent c, userResponseContent c.name r])

/-- What one call to `process_query` did: every conversation handed to
`generate_content`, in order, and either the returned
`(answer text, contents)` pair or the exception that escaped. -/
structure PQOutcome where
  llmCalls : List (List Content)
  result : Except PyErr (Option String × List Content)
  deriving Repr

/-- Method `MCPClient.process_query` (lines 87–167), value view.  The conversation
is built from the history and query, the per-turn tool list is fetched
(`queryTurnAvailableTools`), the LLM is called once; if it requested tool
invocations the loop dispatches them and one further LLM call produces the
final answer, appended as a model turn; otherwise the response text itself
is appended as a model turn and returned. -/
def processQuery (sessions : List Session) (llm : LLM) (query : String)
    (contentsHistory : Option (List Content)) : PQOutcome :=
  let contents := contentsInit query contentsHistory
  match queryTurnAvailableTools sessions with
  | .error e => ⟨[], .error e⟩
  | .ok _availableTools =>
      let response := llm contents
      if response.function_calls ≠ [] then
        match toolCallLoop sessions response.function_calls contents with
        | .error e => ⟨[contents], .error e⟩
        | .ok contents2 =>
            let finalResponse := llm contents2
            ⟨[contents, contents2],
             .ok (finalResponse.text,
                  contents2 ++ [modelTextContent finalResponse.text])⟩
      else
        ⟨[contents], .ok (response.text, contents ++ [modelTextContent response.text])⟩

/-- Observable effect of one iteration of `chat_loop` (lines 169–191). -/
structure StepResult where
  nextHistory : Option (List Content)
  terminated : Bool
  raised : Option PyErr
  printedResponse : Option String
  deriving Repr

/-- One iteration of `MCPClient.chat_loop`: the input is stripped; `quit`
breaks the loop, `new` discards the history (`contents_history = None`) and
continues, anything else is submitted to `process_query` and the returned
conversation becomes the next history.  The `try/except` around the body is
commented out in the source, so an exception from `process_query`
propagates and aborts the loop. -/
def chatStep (sessions : List Session) (llm : LLM)
    (contentsHistory : Option (List Content)) (rawInput : String) : StepResult :=
  let query := pyStrip rawInput
  if pyStrEq (pyLower query) "quit" then
    ⟨contentsHistory, true, none, none⟩
  else if pyStrEq (pyLower query) "new" then
    ⟨none, false, none, none⟩
  else
    match (processQuery sessions llm query contentsHistory).result with
    | .error e => ⟨contentsHistory, true, some e, none⟩
    | .ok (text, contents) => ⟨some contents, false, none, text⟩

/-- An entry of the client's `AsyncExitStack`, in acquisition order: each
successful `connect_to_server` enters the stdio transport context and then
the `ClientSession` context. -/
inductive StackEntry where
  | transport (command : String) (path : String)
  | session (s : Session)
  deriving DecidableEq, Repr

/-- The mutable state of an `MCPClient`: the open session list
(`self.sessions`) and the contexts entered on `self.exit_stack`. -/
structure MCPState where
  sessions : List Session
  exitStack : List StackEntry
  deriving Repr

/-- Method `MCPClient.connect_to_server` (lines 32–71).  The script path must end
in `.py` or `.js`, else `ValueError("Server script must be a .py or .js
file")` is raised before anything is registered.  Otherwise the command is
chosen, and transport setup, session creation and the MCP handshake —
delegated entirely to the SDK — are abstracted as the `spawn` oracle; on
success the transport and session contexts are pushed on the exit stack and
the session is appended to `self.sessions`. -/
def connect_to_server (spawn : String → String → Except PyErr Session)
    (server_script_path : String) (st : MCPState) : MCPState × Option PyErr :=
  let is_python := pyEndsWith server_script_path ".py"
  let is_js := pyEndsWith server_script_path ".js"
  if ¬ (is_python ∨ is_js) then
    (st, some (.valueError "Server script must be a .py or .js file"))
  else
    let command := if is_python then "python" else "node"
    match spawn command server_script_path with
    | .error e => (st, some e)
    | .ok s =>
        ({ sessions := st.sessions ++ [s],
           exitStack := st.exitStack ++ [.transport command server_script_path,
                                         .session s] },
         none)

/-- Unwinding of an exit-stack callback list given in unwind (reverse-entry)
order.  Follows the documented semantics of `contextlib.AsyncExitStack`:
`aclose` behaves like the end of a block of nested `with` statements, so
every registered context's exit runs even when an earlier (inner) exit
raises, and the outermost raised exception is the one that propagates.
Returns the entries actually exited, in order, and the propagated error. -/
def acloseAux (exit : StackEntry → Except PyErr Unit) :
    List StackEntry → List StackEntry × Option PyErr
  | [] => ([], none)
  | x :: rest =>
      let r := exit x
      let (closed, err) := acloseAux exit rest
      (x :: closed,
       match err with
       | some e => some e
       | none => match r with
                 | .error e => some e
                 | .ok _ => none)

/-- Method `MCPClient.cleanup` (lines 194–196): `await self.exit_stack.aclose()`,
which unwinds every entered context in reverse acquisition order. -/
def cleanup (exit : StackEntry → Except PyErr Unit) (st : MCPState) :
    List StackEntry × Option PyErr :=
  acloseAux exit st.exitStack.reverse

/-- Observable trace of one run of `main` (lines 199–210). -/
structure MainTrace where
  usageMessage : Option String
  exitCode : Option Nat
  connectAttempts : List String
  enteredChatLoop : Bool
  deriving Repr

/-- The `for i in range(1, len(sys.argv))` connection loop of `main`:
attempts each script path in order; an exception from `connect_to_server`
propagates (to `main`'s `finally`), so later paths are not attempted. -/
def connectAll (spawn : String → String → Except PyErr Session)
    (paths : List String) (st : MCPState) :
    MCPState × List String × Option PyErr :=
  match paths with
  | [] => (st, [], none)
  | p :: rest =>
      match connect_to_server spawn p st with
      | (st2, some e) => (st2, [p], some e)
      | (st2, none) =>
          let (st3, attempted, err) := connectAll spawn rest st2
          (st3, p :: attempted, err)

/-- Entry point `main` (lines 199–210): with fewer than two `sys.argv` entries it
prints the usage line and calls `sys.exit(1)`, connecting to nothing and
never reaching `chat_loop`; otherwise it connects to `sys.argv[1:]` in
order and enters `chat_loop` when every connection succeeded. -/
def main (spawn : String → String → Except PyErr Session)
    (argv : List String) : MainTrace :=
  if argv.length < 2 then
    { usageMessage := some "Usage: python client.py <path_to_server_script>",
      exitCode := some 1,
      connectAttempts := [],
      enteredChatLoop := false }
  else
    let (_st, attempted, err) := connectAll spawn (argv.drop 1) ⟨[], []⟩
    { usageMessage := none,
      exitCode := none,
      connectAttempts := attempted,
      enteredChatLoop := err.isNone }

/-! ## Store-passing view of `process_query`

Python lists are heap objects mutated in place: `contents =
contents_history` aliases the caller's list and every
`contents.append(...)` mutates it.  To reason about object identity the
same lines 87–167 are rendered once more against an explicit heap of list
objects; a conversation is now a reference (heap index). -/

/-- A heap of Python list-of-`Content` objects, addressed by index. -/
abbrev Heap : Type := List (List Content)

/-- Dereference a list object. -/
def heapGet (hp : Heap) (r : Nat) : List Content :=
  List.getD hp r []

/-- Python `obj.append(x)` on the list object at `r`: in-place mutation. -/
def heapAppend (hp : Heap) (r : Nat) (x : Content) : Heap :=
  List.set hp r (heapGet hp r ++ [x])

/-- Allocate a fresh list object, returning the heap and its reference. -/
def heapAlloc (hp : Heap) (v : List Content) : Heap × Nat :=
  (hp ++ [v], List.length hp)

/-- The tool-invocation loop of `process_query`, store-passing view: each
successful dispatch appends the model function-call turn then the user
function-response turn to the list object at `r`; a dispatch exception
propagates with the heap as mutated so far. -/
def toolCallLoopRef (sessions : List Session) (calls : List FunctionCall)
    (r : Nat) (hp : Heap) : Heap × Option PyErr :=
  match calls with
  | [] => (hp, none)
  | c :: rest =>
      match sessionsCallTool sessions c.name c.args with
      | .error e => (hp, some e)
      | .ok res =>
          toolCallLoopRef sessions rest r
            (heapAppend (heapAppend hp r (modelCallContent c)) r
              (userResponseContent c.name res))

/-- Method `MCPClient.process_query`, store-passing view.  `if contents_history:`
is truthy exactly when a list reference is passed and the referenced list
is non-empty; in that case the new user turn is appended to the CALLER'S
list object and all later appends hit the same object, which is also what
the function returns a reference to.  Otherwise a fresh list object is
allocated.  Returns the final heap and either `(answer text, reference to
the returned conversation)` or the escaped exception. -/
def processQueryRef (sessions : List Session) (llm : LLM) (query : String)
    (contentsHistory : Option Nat) (hp : Heap) :
    Heap × Except PyErr (Option String × Nat) :=
  let start : Heap × Nat :=
    match contentsHistory with
    | some r =>
        if heapGet hp r ≠ [] then (heapAppend hp r (userTextContent query), r)
        else heapAlloc hp [userTextContent query]
    | none => heapAlloc hp [userTextContent query]
  let hp1 := start.1
  let r := start.2
  match queryTurnAvailableTools sessions with
  | .error e => (hp1, .error e)
  | .ok _availableTools =>
      let response := llm (heapGet hp1 r)
      if response.function_calls ≠ [] then
        match toolCallLoopRef sessions response.function_calls r hp1 with
        | (hp2, some e) => (hp2, .error e)
        | (hp2, none) =>
            let finalResponse := llm (heapGet hp2 r)
            (heapAppend hp2 r (modelTextContent finalResponse.text),
             .ok (finalResponse.text, r))
      else
        (heapAppend hp1 r (modelTextContent response.text),
         .ok (response.text, r))

/-! ## Concrete fixtures

Small concrete servers used to evaluate the embedded code: the `add` tool
of `src/example_mcp_server/add.py`, and a second server offering `search`
(the name-collision scenario of the specification). -/

/-- The `add` tool advertised by `src/example_mcp_server/add.py`. -/
def addTool : Tool := ⟨"add", "Adds a and b.", "object"⟩

/-- A `search` tool on a second server. -/
def searchTool : Tool := ⟨"search", "Searches.", "object"⟩

/-- First-connected session, offering `add`. -/
def sessionAdd : Session := ⟨1, [addTool]⟩

/-- Second-connected session, offering `search`. -/
def sessionSearch : Session := ⟨2, [searchTool]⟩

/-- An LLM oracle that always requests one `add(a=2, b=3)` invocation. -/
def llmCallsAdd : LLM := fun _ => ⟨[⟨"add", [("a", "2"), ("b", "3")]⟩], none⟩

/-- An LLM oracle that always requests two `add` invocations. -/
def llmTwoCalls : LLM :=
  fun _ => ⟨[⟨"add", [("a", "2"), ("b", "3")]⟩, ⟨"add", [("a", "4"), ("b", "5")]⟩], none⟩

/-- An LLM oracle that requests a tool no connected server offers. -/
def llmUnknownCall : LLM := fun _ => ⟨[⟨"doesnotexist", []⟩], none⟩

/-- An LLM oracle that requests no invocation and answers with empty text. -/
def llmTextOnly : LLM := fun _ => ⟨[], some ""⟩

/-! ## Helper lemmas -/

/-- The per-turn tool-fetch fold keeps only the response of the last
session iterated. -/
theorem foldl_listTools (l : List Session) (s : Session)
    (start : Option ListToolsResponse) :
    (l ++ [s]).foldl (fun _ session => some (list_tools session)) start =
      some (list_tools s) := by
  induction l generalizing start with
  | nil => rfl
  | cons a t ih => exact ih (some (list_tools a))

/-- On a non-empty session list the query-turn fetch succeeds and returns
the formatted tools of the LAST session only. -/
theorem queryTurnAvailableTools_concat (L : List Session) (b : Session) :
    queryTurnAvailableTools (L ++ [b]) =
      .ok (format_available_tools (list_tools b)) := by
  unfold queryTurnAvailableTools
  rw [foldl_listTools]
  simp

/-! ## Claims -/

/-- C1: the claim says the catalog built for a query turn contains an entry
for every tool of every open session, last-connected winning on a name
collision.  In the code the `available_tools.append` of `process_query`
sits outside the `for` loop, so the query-turn catalog holds the LAST
session's tools only: with the first session offering `add` and the second
offering `search`, the query-turn catalog is just `search`'s declaration
and `add` is absent — even though the (discarded) dict that
`connect_to_server` builds does contain both names. -/
theorem c1_query_turn_catalog_drops_earlier_sessions :
    queryTurnAvailableTools [sessionAdd, sessionSearch] =
      .ok [⟨"search", "Searches.", "object"⟩]
    ∧ ((queryTurnAvailableTools [sessionAdd, sessionSearch]).toOption.getD []).all
        (fun d => d.name ≠ "add")
    ∧ dictGet? (available_tools_connect [sessionAdd, sessionSearch]) "add" =
        some sessionAdd
    ∧ dictGet? (available_tools_connect [sessionAdd, sessionSearch]) "search" =
        some sessionSearch := by
  refine ⟨rfl, by decide, rfl, rfl⟩

/-- C2: the claim says an invocation whose name is in the merged catalog is
dispatched to the owning session, located by catalog lookup.  The code
instead evaluates `self.sessions.call_tool(...)` where `self.sessions` is a
Python `list`, so even for `add` — present in the merged catalog and owned
by the connected session — the dispatch raises `AttributeError` and no
session's tool result is ever obtained. -/
theorem c2_dispatch_raises_attribute_error :
    dictGet? (available_tools_connect [sessionAdd]) "add" = some sessionAdd
    ∧ (processQuery [sessionAdd] llmCallsAdd "Add 2 and 3" none).result =
        .error (.attributeError "list object has no attribute call_tool") := by
  exact ⟨rfl, rfl⟩

/-- C3: the claim says each requested invocation appends a function-call
model turn and a function-result user turn, after which exactly one further
LLM call produces the final answer.  In the code the first dispatch raises
`AttributeError` (see C2), so with two requested invocations the turn
aborts: the only LLM call ever made is the initial one (no second call over
an extended conversation) and `process_query` ends in the exception instead
of returning an answer. -/
theorem c3_tool_branch_aborts_before_appends :
    (processQuery [sessionAdd] llmTwoCalls "q" none).llmCalls =
        [[userTextContent "q"]]
    ∧ (processQuery [sessionAdd] llmTwoCalls "q" none).result =
        .error (.attributeError "list object has no attribute call_tool") := by
  exact ⟨rfl, rfl⟩

/-- C5: the claim says a dispatch whose tool name is absent from the merged
catalog fails with `UnknownToolError`.  The code never consults the catalog
when dispatching: a request for `doesnotexist` — absent from the merged
catalog — raises the same `AttributeError` as any other dispatch (compare
C2), not a name-based unknown-tool error. -/
theorem c5_catalog_miss_same_attribute_error :
    dictGet? (available_tools_connect [sessionAdd]) "doesnotexist" = none
    ∧ (processQuery [sessionAdd] llmUnknownCall "q" none).result =
        .error (.attributeError "list object has no attribute call_tool") := by
  exact ⟨rfl, rfl⟩

/-- C6: a server script path that ends in neither `.py` nor `.js` makes
`connect_to_server` fail with the error of the specification's
`ConnectionError` class — raised in the source as `ValueError("Server
script must be a .py or .js file")` — before any transport is opened, so
the client state (session registry and exit stack) is returned unchanged:
no session is added for that endpoint. -/
theorem c6_unrecognized_script_rejected
    (spawn : String → String → Except PyErr Session) (path : String)
    (st : MCPState)
    (hpy : pyEndsWith path ".py" = false) (hjs : pyEndsWith path ".js" = false) :
    connect_to_server spawn path st =
      (st, some (.valueError "Server script must be a .py or .js file")) := by
  unfold connect_to_server
  simp [hpy, hjs]

/-- C6 witness: the path `server.txt` is rejected and the empty client
state is untouched. -/
theorem c6_unrecognized_script_rejected_witness :
    connect_to_server (fun _ _ => .error (.valueError "no spawn")) "server.txt"
        ⟨[], []⟩ =
      (⟨[], []⟩, some (.valueError "Server script must be a .py or .js file")) :=
  c6_unrecognized_script_rejected (fun _ _ => .error (.valueError "no spawn"))
    "server.txt" ⟨[], []⟩ (by decide) (by decide)

/-- C7: when the LLM response carries no tool invocation requests,
`process_query` makes no further LLM call (the call log is just the initial
conversation), appends exactly one model turn holding `response.text`
as-is — even when that text is empty or absent — and returns that text. -/
theorem c7_text_only_appends_one_model_turn
    (sessions : List Session) (llm : LLM) (query : String)
    (contentsHistory : Option (List Content))
    (hs : sessions ≠ [])
    (hfc : (llm (contentsInit query contentsHistory)).function_calls = []) :
    (processQuery sessions llm query contentsHistory).llmCalls =
        [contentsInit query contentsHistory]
    ∧ (processQuery sessions llm query contentsHistory).result =
        .ok ((llm (contentsInit query contentsHistory)).text,
             contentsInit query contentsHistory ++
               [modelTextContent (llm (contentsInit query contentsHistory)).text]) := by
  rcases List.eq_nil_or_concat sessions with h | ⟨L, b, h⟩
  · exact absurd h hs
  · rw [List.concat_eq_append] at h
    subst h
    unfold processQuery
    rw [queryTurnAvailableTools_concat]
    simp [hfc]

/-- C7 witness: one connected server, an LLM answering with zero
invocations and empty text; the empty text is surfaced unchanged. -/
theorem c7_text_only_appends_one_model_turn_witness :
    (processQuery [sessionAdd] llmTextOnly "hi" none).llmCalls =
        [[userTextContent "hi"]]
    ∧ (processQuery [sessionAdd] llmTextOnly "hi" none).result =
        .ok (some "", [userTextContent "hi"] ++ [modelTextContent (some "")]) :=
  c7_text_only_appends_one_model_turn [sessionAdd] llmTextOnly "hi" none
    (by simp) rfl

/-- C9: invoked with fewer than two `argv` entries (no tool-server script
path), `main` prints the usage line, exits with status 1, attempts no
connection and never enters the chat loop. -/
theorem c9_usage_exit (spawn : String → String → Except PyErr Session)
    (argv : List String) (h : argv.length < 2) :
    main spawn argv =
      { usageMessage := some "Usage: python client.py <path_to_server_script>",
        exitCode := some 1,
        connectAttempts := [],
        enteredChatLoop := false } := by
  unfold main
  simp [h]

/-- C9 witness: `argv = ["client.py"]` (the script name alone). -/
theorem c9_usage_exit_witness :
    main (fun _ _ => .error (.valueError "no spawn")) ["client.py"] =
      { usageMessage := some "Usage: python client.py <path_to_server_script>",
        exitCode := some 1,
        connectAttempts := [],
        enteredChatLoop := false } :=
  c9_usage_exit (fun _ _ => .error (.valueError "no spawn")) ["client.py"]
    (by decide)

/-- Whatever the LLM answers, the FIRST conversation `process_query` hands
to `generate_content` is the one built from the history and the query. -/
theorem processQuery_llmCalls_head (sessions : List Session) (llm : LLM)
    (query : String) (contentsHistory : Option (List Content))
    (hs : sessions ≠ []) :
    (processQuery sessions llm query contentsHistory).llmCalls.head? =
      some (contentsInit query contentsHistory) := by
  rcases List.eq_nil_or_concat sessions with h | ⟨L, b, h⟩
  · exact absurd h hs
  · rw [List.concat_eq_append] at h
    subst h
    unfold processQuery
    rw [queryTurnAvailableTools_concat]
    by_cases hfc :
        (llm (contentsInit query contentsHistory)).function_calls = []
    · simp [hfc]
    · simp only [hfc, ne_eq, not_false_eq_true, if_true]
      rcases htl : toolCallLoop (L ++ [b])
          (llm (contentsInit query contentsHistory)).function_calls
          (contentsInit query contentsHistory) with e | c2 <;> simp [htl]

/-- C4: `process_query` with an empty history (the `None` default, or an
empty list) sends the LLM a conversation of exactly one user turn holding
the query; with a non-empty history it sends that history with one new
user turn appended.  After the user issues `new`, `chat_loop` resets the
history to `None`, so the next turn falls under the empty case and the LLM
sees only the new user message. -/
theorem c4_history_handling (sessions : List Session) (llm : LLM)
    (query : String) (h hist0 : List Content)
    (hs : sessions ≠ []) (hne : h ≠ []) :
    (processQuery sessions llm query none).llmCalls.head? =
        some [userTextContent query]
    ∧ (processQuery sessions llm query (some [])).llmCalls.head? =
        some [userTextContent query]
    ∧ (processQuery sessions llm query (some h)).llmCalls.head? =
        some (h ++ [userTextContent query])
    ∧ (chatStep sessions llm (some hist0) "new").nextHistory = none := by
  refine ⟨?_, ?_, ?_, rfl⟩
  · rw [processQuery_llmCalls_head sessions llm query none hs]; rfl
  · rw [processQuery_llmCalls_head sessions llm query (some []) hs]; rfl
  · rw [processQuery_llmCalls_head sessions llm query (some h) hs]
    simp [contentsInit, hne]

/-- C4 witness: one connected server, a fresh turn, a continued turn, and
a `new` reset, all at concrete inputs. -/
theorem c4_history_handling_witness :
    (processQuery [sessionAdd] llmTextOnly "hello" none).llmCalls.head? =
        some [userTextContent "hello"]
    ∧ (processQuery [sessionAdd] llmTextOnly "hello" (some [])).llmCalls.head? =
        some [userTextContent "hello"]
    ∧ (processQuery [sessionAdd] llmTextOnly "hello"
          (some [userTextContent "first"])).llmCalls.head? =
        some ([userTextContent "first"] ++ [userTextContent "hello"])
    ∧ (chatStep [sessionAdd] llmTextOnly (some [userTextContent "first"])
          "new").nextHistory = none :=
  c4_history_handling [sessionAdd] llmTextOnly "hello" [userTextContent "first"]
    [userTextContent "first"] (by simp) (by simp)

/-- Unwinding runs the exit of EVERY entry handed to it, in the given
order, whether or not earlier exits raised. -/
theorem acloseAux_closes_all (exit : StackEntry → Except PyErr Unit) :
    ∀ l : List StackEntry, (acloseAux exit l).1 = l := by
  intro l
  induction l with
  | nil => rfl
  | cons x rest ih => simp [acloseAux, ih]

/-- C8: `cleanup` tears down the entered contexts — in particular every
open session — in reverse acquisition order, for EVERY behaviour of the
individual exits: even when some exits raise, the list of contexts actually
exited is still the full stack reversed, so teardown of the remaining
sessions proceeds past a failing close. -/
theorem c8_cleanup_reverse_best_effort
    (exit : StackEntry → Except PyErr Unit) (st : MCPState) :
    (cleanup exit st).1 = st.exitStack.reverse := by
  unfold cleanup
  exact acloseAux_closes_all exit st.exitStack.reverse

/-- In-place append leaves the heap's shape (number of objects) alone. -/
theorem heapAppend_length (hp : Heap) (r : Nat) (x : Content) :
    (heapAppend hp r x).length = hp.length := by
  simp [heapAppend]

/-- Dereferencing after an in-bounds in-place append sees the new element. -/
theorem heapGet_heapAppend_self (hp : Heap) (r : Nat) (x : Content)
    (hr : r < hp.length) :
    heapGet (heapAppend hp r x) r = heapGet hp r ++ [x] := by
  induction hp generalizing r with
  | nil => simp at hr
  | cons a t ih =>
      cases r with
      | zero => simp [heapGet, heapAppend]
      | succ n =>
          have hrt : n < t.length := by simpa using hr
          simpa [heapGet, heapAppend] using ih n hrt

/-- Holds when a successful result of the store-passing `process_query`
hands back exactly the reference `r`; an escaped exception hands back no
reference at all. -/
def returnedRefIs (res : Except PyErr (Option String × Nat)) (r : Nat) : Prop :=
  match res with
  | .ok p => p.2 = r
  | .error _ => True

/-- C10: called with a reference to a non-empty history list, the
store-passing `process_query` returns (on success) the very same reference
it was given, and the list object behind that reference has been mutated in
place: whatever else the turn did — including aborting in an exception —
the caller's object now starts with its old contents followed by the newly
appended user turn. -/
theorem c10_in_place_mutation (sessions : List Session) (llm : LLM)
    (query : String) (r : Nat) (hp : Heap)
    (hr : r < hp.length) (hne : heapGet hp r ≠ []) :
    returnedRefIs (processQueryRef sessions llm query (some r) hp).2 r
    ∧ (heapGet (processQueryRef sessions llm query (some r) hp).1 r).take
        ((heapGet hp r).length + 1) =
      heapGet hp r ++ [userTextContent query] := by
  have hget1 : heapGet (heapAppend hp r (userTextContent query)) r =
      heapGet hp r ++ [userTextContent query] :=
    heapGet_heapAppend_self hp r _ hr
  have hr1 : r < (heapAppend hp r (userTextContent query)).length := by
    rw [heapAppend_length]; exact hr
  have htake1 : (heapGet hp r ++ [userTextContent query]).take
      ((heapGet hp r).length + 1) = heapGet hp r ++ [userTextContent query] := by
    have hlen : (heapGet hp r ++ [userTextContent query]).length =
        (heapGet hp r).length + 1 := by simp
    rw [← hlen, List.take_length]
  have htake2 : ∀ m : Content,
      ((heapGet hp r ++ [userTextContent query]) ++ [m]).take
        ((heapGet hp r).length + 1) = heapGet hp r ++ [userTextContent query] := by
    intro m
    have hlen : (heapGet hp r ++ [userTextContent query]).length =
        (heapGet hp r).length + 1 := by simp
    rw [← hlen, List.take_left]
  unfold processQueryRef
  simp only [hne, ne_eq, not_false_eq_true, if_true]
  rcases hq : queryTurnAvailableTools sessions with e | decls
  · exact ⟨trivial, by rw [hget1]; exact htake1⟩
  · by_cases hfc :
        (llm (heapGet (heapAppend hp r (userTextContent query)) r)).function_calls
          = []
    · simp only [hfc, ne_eq, not_true_eq_false, if_false, if_neg]
      refine ⟨rfl, ?_⟩
      rw [heapGet_heapAppend_self _ r _ hr1, hget1]
      exact htake2 _
    · obtain ⟨c, rest, hcr⟩ := List.exists_cons_of_ne_nil hfc
      rw [hcr]
      simp only [ne_eq, List.cons_ne_nil, not_false_eq_true, if_true,
        toolCallLoopRef, sessionsCallTool, hget1]
      exact ⟨trivial, htake1⟩

/-- C10 witness: a one-object heap holding a one-turn history; the turn
mutates that object in place and returns its reference. -/
theorem c10_in_place_mutation_witness :
    returnedRefIs (processQueryRef [sessionAdd] llmTextOnly "again" (some 0)
        [[userTextContent "first"]]).2 0
    ∧ (heapGet (processQueryRef [sessionAdd] llmTextOnly "again" (some 0)
          [[userTextContent "first"]]).1 0).take
        ((heapGet [[userTextContent "first"]] 0).length + 1) =
      heapGet [[userTextContent "first"]] 0 ++ [userTextContent "again"] :=
  c10_in_place_mutation [sessionAdd] llmTextOnly "again" 0
    [[userTextContent "first"]] (by simp) (by simp [heapGet])

end NomoLLM
